import Mathlib

/-
Shallow embedding of the Eventful ticketing backend, focused on the
purchase, reconciliation, verification and refund pipeline.

Sources embedded:
  - TicketService (src/src/services/ticket.service.ts): purchaseTicket,
    verifyPayment, createTicket, verifyTicket, cancelTicket,
    createPaymentRecord.
  - RefundPolicy (policies/RefundPolicy.ts): checkRefundEligibility,
    calculateRefundAmount.
  - RefundService (services/refund.service.ts): processTicketRefund.
  - WalletService (services/wallet.service.ts): refundWallet.
  - The redis wrapper (src/src/config/redis.ts): set stores a value with an
    optional TTL; the TTL is applied only when a ttl argument is passed.

Machine numbers are modelled as Int (timestamps in milliseconds, amounts in
kobo) and JsNum, an exact unreduced fraction type standing for the
JavaScript floating arithmetic on naira amounts (all amounts arising in this
code are exactly representable). Fallible steps return Except, with the
partially updated state carried along exactly the way the try/catch blocks
in the source leave it.
-/

namespace Eventful

/-- Exact fraction with explicit denominator, used to model JavaScript
number arithmetic on naira amounts. All constructions in this file keep the
denominator positive. Fractions are not reduced, so structural equality of
two values computed along the same code path is the right notion. -/
structure JsNum where
  num : Int
  den : Int
deriving DecidableEq, Repr

def JsNum.ofInt (n : Int) : JsNum := { num := n, den := 1 }

def JsNum.add (a b : JsNum) : JsNum :=
  { num := a.num * b.den + b.num * a.den, den := a.den * b.den }

def JsNum.mul (a b : JsNum) : JsNum :=
  { num := a.num * b.num, den := a.den * b.den }

def JsNum.div (a b : JsNum) : JsNum :=
  if 0 ≤ b.num then { num := a.num * b.den, den := a.den * b.num }
  else { num := -(a.num * b.den), den := -(a.den * b.num) }

instance : Add JsNum := ⟨JsNum.add⟩

instance : Mul JsNum := ⟨JsNum.mul⟩

instance : Div JsNum := ⟨JsNum.div⟩

instance : OfNat JsNum n := ⟨JsNum.ofInt n⟩

instance : IntCast JsNum := ⟨JsNum.ofInt⟩

instance : NatCast JsNum := ⟨fun n => JsNum.ofInt n⟩

instance : LE JsNum := ⟨fun a b => a.num * b.den ≤ b.num * a.den⟩

instance : DecidableRel (fun a b : JsNum => a ≤ b) :=
  fun a b => inferInstanceAs (Decidable (a.num * b.den ≤ b.num * a.den))

/-- Floor of a fraction with positive denominator. -/
def JsNum.floorInt (q : JsNum) : Int := Int.fdiv q.num q.den

/-- Timestamps in milliseconds since the epoch, as produced by Date.getTime. -/
abbrev Time := Int

inductive TicketStatus where
  | pending
  | confirmed
  | used
  | cancelled
  | expired
deriving DecidableEq, Repr

inductive PayStatus where
  | pending
  | successful
  | failed
  | refunded
deriving DecidableEq, Repr

inductive EventStatus where
  | draft
  | published
  | cancelled
  | completed
deriving DecidableEq, Repr

/-- Transaction status reported by the Paystack gateway for a reference. -/
inductive GatewayStatus where
  | success
  | failed
  | pending
deriving DecidableEq, Repr

/-- Event document (Event.model.ts), restricted to the fields the pipeline
reads and writes. ticketPrice is in kobo; date is a millisecond timestamp. -/
structure EventRec where
  id : Nat
  ticketPrice : Int
  totalTickets : Int
  availableTickets : Int
  date : Time
  status : EventStatus
deriving DecidableEq, Repr

/-- Ticket document (Ticket.model.ts) as created by TicketService.createTicket. -/
structure TicketRec where
  id : Nat
  ticketNumber : Nat
  eventId : Nat
  userId : Nat
  price : Int
  paymentReference : String
  paymentStatus : PayStatus
  status : TicketStatus
  purchaseDate : Time
  usedAt : Option Time
deriving DecidableEq, Repr

/-- Payment intent JSON written to redis by purchaseTicket. totalAmount is
the naira total (a JavaScript float), exactly as stored. -/
structure IntentRec where
  eventId : Nat
  userId : Nat
  quantity : Nat
  totalAmount : JsNum
  createdAt : Time
deriving DecidableEq, Repr

/-- One redis key of the form payment:reference. The wrapper redisClient.set
attaches an EX expiry only when a ttl argument is provided; ttl = none means
the key never expires. -/
structure CacheEntry where
  reference : String
  data : IntentRec
  ttl : Option Nat
deriving DecidableEq, Repr

/-- Payment document created by TicketService.createPaymentRecord. -/
structure PaymentRec where
  reference : String
  userId : Nat
  eventId : Nat
  ticketId : Nat
  amount : Int
  status : PayStatus
deriving DecidableEq, Repr

/-- Wallet document (Wallet.model.ts). Balances are naira floats. -/
structure WalletRec where
  userId : Nat
  balance : JsNum
  isActive : Bool
deriving DecidableEq, Repr

inductive TransType where
  | credit
  | debit
  | refund
deriving DecidableEq, Repr

/-- Ledger transaction created by WalletService. -/
structure TransRec where
  userId : Nat
  ttype : TransType
  amount : JsNum
  balance : JsNum
  reference : String
deriving DecidableEq, Repr

/-- The persistent state the pipeline touches: the mongo collections plus
the redis payment-intent keys. Users are modelled by their ids. -/
structure World where
  events : List EventRec
  users : List Nat
  tickets : List TicketRec
  payments : List PaymentRec
  intents : List CacheEntry
  wallets : List WalletRec
  transactions : List TransRec
deriving DecidableEq, Repr

/-- JavaScript Math.round: round half toward positive infinity. -/
def jsRound (q : JsNum) : Int := JsNum.floorInt (q + { num := 1, den := 2 })

/-- Ceiling division for positive divisors, as Math.ceil(a / b) computes it. -/
def ceilDiv (a b : Int) : Int := -(Int.fdiv (-a) b)

def msPerDay : Int := 86400000

/-- Math.ceil((eventDate - now) / (1000*60*60*24)) from RefundPolicy. -/
def daysUntilEvent (eventDate now : Time) : Int := ceilDiv (eventDate - now) msPerDay

def reasonAlreadyUsed : String := "Ticket has already been used"
def reasonAlreadyCancelled : String := "Ticket is already cancelled"
def reasonOrganizerCancelled : String := "Event cancelled by organizer - full refund"
def reasonFull : String := "Full refund available up to 7 days before event"
def reasonHalf : String := "50% refund available up to 3 days before event"
def reasonQuarter : String := "25% refund available up to 1 day before event"
def reasonWithin24 : String := "Refunds not available within 24 hours of event"
def reasonPassed : String := "Event has already passed"

/-- Result record of RefundPolicy.checkRefundEligibility. -/
structure RefundEligibility where
  eligible : Bool
  refundPercentage : Nat
  deadline : Option Time
  reason : String
deriving DecidableEq, Repr

/-- RefundPolicy.checkRefundEligibility, translated clause for clause. The
source also computes daysSincePurchase but never uses it. -/
def checkRefundEligibility (eventDate purchaseDate : Time) (ticketStatus : TicketStatus)
    (eventStatus : EventStatus) (now : Time) : RefundEligibility :=
  if ticketStatus = TicketStatus.used then
    { eligible := false, refundPercentage := 0, deadline := none, reason := reasonAlreadyUsed }
  else if ticketStatus = TicketStatus.cancelled then
    { eligible := false, refundPercentage := 0, deadline := none, reason := reasonAlreadyCancelled }
  else if eventStatus = EventStatus.cancelled then
    { eligible := true, refundPercentage := 100, deadline := none, reason := reasonOrganizerCancelled }
  else if daysUntilEvent eventDate now > 7 then
    { eligible := true, refundPercentage := 100, deadline := some (eventDate - 7 * msPerDay),
      reason := reasonFull }
  else if daysUntilEvent eventDate now > 3 then
    { eligible := true, refundPercentage := 50, deadline := some (eventDate - 3 * msPerDay),
      reason := reasonHalf }
  else if daysUntilEvent eventDate now > 1 then
    { eligible := true, refundPercentage := 25, deadline := some (eventDate - 1 * msPerDay),
      reason := reasonQuarter }
  else if daysUntilEvent eventDate now ≥ 0 then
    { eligible := false, refundPercentage := 0, deadline := none, reason := reasonWithin24 }
  else
    { eligible := false, refundPercentage := 0, deadline := none, reason := reasonPassed }

/-- Result record of RefundPolicy.calculateRefundAmount. -/
structure RefundCalc where
  amount : JsNum
  percentage : Nat
  reason : String
deriving DecidableEq, Repr

/-- RefundPolicy.calculateRefundAmount: the source calls
checkRefundEligibility with the literals confirmed and published for the
ticket and event status, whatever the actual statuses are. -/
def calculateRefundAmount (ticketPrice : Int) (eventDate purchaseDate : Time)
    (now : Time) : RefundCalc :=
  let e := checkRefundEligibility eventDate purchaseDate TicketStatus.confirmed
    EventStatus.published now
  { amount := (JsNum.ofInt ticketPrice * (e.refundPercentage : JsNum)) / 100,
    percentage := e.refundPercentage,
    reason := e.reason }

def msgSessionExpired : String := "Payment session expired or not found. Please try purchasing again."
def msgPaymentSuccess : String := "Payment successful and ticket created"
def msgVerificationFailed : String := "Payment verification failed"
def msgQrFailed : String := "Failed to generate QR code"
def msgTicketSaveFailed : String := "Ticket save failed"
def msgUserUpdateFailed : String := "User update failed"
def msgEventUpdateFailed : String := "Event update failed"
def msgPaymentRecordFailed : String := "Create payment record failed"
def msgEventNotFound : String := "Event not found"
def msgEventNotPublished : String := "Event is not available for ticket purchase"
def msgInsufficientTickets : String := "Only N tickets available"
def msgUserNotFound : String := "User not found"
def msgGatewayInitFailed : String := "Payment gateway initialization failed"
def msgTicketNotFoundPerm : String := "Ticket not found or you do not have permission"
def msgCannotCancelUsed : String := "Cannot cancel a used ticket"
def msgTicketAlreadyCancelled : String := "Ticket is already cancelled"
def msgPastEvent : String := "Cannot cancel ticket for past event"
def msgTicketNotFound : String := "Ticket not found"
def msgAlreadyRefunded : String := "Ticket already refunded"
def msgAmountPositive : String := "Amount must be greater than 0"
def msgWalletNotFound : String := "Wallet not found"
def msgWalletInactive : String := "Wallet is inactive"
def msgInvalidCode : String := "Invalid ticket code"
def msgAlreadyUsed : String := "Ticket has already been used"
def msgCancelledTicket : String := "Ticket has been cancelled"
def msgExpiredTicket : String := "Ticket has expired"
def msgPaymentNotCompleted : String := "Payment not completed"
def msgValidTicket : String := "Valid ticket"
def msgRefundProcessed : String := "Refund processed successfully"

def refPrefix : String := "REF-"

/-- Event.findById. -/
def findEvent (w : World) (eid : Nat) : Option EventRec :=
  w.events.find? (fun e => e.id == eid)

/-- Event.findByIdAndUpdate with an inc on availableTickets. Mongoose update
operations run no schema validators and no pre-save hooks, so the increment
is unconditional; a missing id is a silent no-op. -/
def updateEventAvail (w : World) (eid : Nat) (delta : Int) : World :=
  { w with events := w.events.map (fun e =>
      if e.id == eid then { e with availableTickets := e.availableTickets + delta } else e) }

/-- redisClient.get on the key payment:reference. -/
def findIntent (w : World) (ref : String) : Option CacheEntry :=
  w.intents.find? (fun c => c.reference == ref)

/-- redisClient.set on the key payment:reference; an EX expiry is attached
only when a ttl argument is passed. -/
def cacheSet (w : World) (ref : String) (d : IntentRec) (ttl : Option Nat) : World :=
  { w with intents := (w.intents.filter (fun c => c.reference != ref)) ++
      [{ reference := ref, data := d, ttl := ttl }] }

/-- redisClient.del on the key payment:reference. -/
def cacheDel (w : World) (ref : String) : World :=
  { w with intents := w.intents.filter (fun c => c.reference != ref) }

/-- Replace the stored ticket with the given id (document save after a
status mutation). -/
def saveTicket (w : World) (t : TicketRec) : World :=
  { w with tickets := w.tickets.map (fun x => if x.id == t.id then t else x) }

/-- Outcome of the Paystack collaborator for one flow: the reference chosen
by initializeTransaction, the status verifyTransaction reports for it, and
whether initializeTransaction itself succeeds. -/
structure GatewayEnv where
  reference : String
  verifyStatus : GatewayStatus
  initOk : Bool
deriving DecidableEq, Repr

/-- Which awaited persistence steps of createTicket succeed; a false flag
models the corresponding await throwing. -/
structure StepEnv where
  qrOk : Bool
  ticketSaveOk : Bool
  userUpdateOk : Bool
  eventUpdateOk : Bool
  paymentSaveOk : Bool
deriving DecidableEq, Repr

def StepEnv.allOk : StepEnv :=
  { qrOk := true, ticketSaveOk := true, userUpdateOk := true,
    eventUpdateOk := true, paymentSaveOk := true }

structure PurchaseResult where
  reference : String
  amount : Int
deriving DecidableEq, Repr

/-- TicketService.purchaseTicket. Checks event existence, published status,
availability and user existence, opens a gateway session, then stores the
payment intent in redis keyed by the gateway reference, with no ttl
argument. Inventory is not touched. -/
def purchaseTicket (genv : GatewayEnv) (w : World) (now : Time)
    (eventId userId : Nat) (quantity : Nat) :
    Except String (PurchaseResult × World) :=
  match findEvent w eventId with
  | none => Except.error msgEventNotFound
  | some ev =>
    if ev.status ≠ EventStatus.published then Except.error msgEventNotPublished
    else if ev.availableTickets < (quantity : Int) then Except.error msgInsufficientTickets
    else if ¬ w.users.contains userId then Except.error msgUserNotFound
    else if ¬ genv.initOk then Except.error msgGatewayInitFailed
    else
      let totalAmountInKobo : Int := ev.ticketPrice * (quantity : Int)
      let nairaTotal : JsNum := (JsNum.ofInt ev.ticketPrice / 100) * (quantity : JsNum)
      let intent : IntentRec :=
        { eventId := eventId, userId := userId, quantity := quantity,
          totalAmount := nairaTotal, createdAt := now }
      let w1 := cacheSet w genv.reference intent none
      Except.ok ({ reference := genv.reference, amount := totalAmountInKobo }, w1)

/-- TicketService.createTicket. On an intermediate failure the steps already
performed stay performed: there is no transaction around the writes. The
ticket is persisted as confirmed and successful, availableTickets is
decremented by one via an unconditional inc, and a payment record is
created. The trailing cache deletions and the fire-and-forget confirmation
email touch no modelled state and cannot fail the operation. -/
def createTicket (senv : StepEnv) (w : World) (now : Time)
    (eventId userId ticketNumber : Nat) (price : Int) (ref : String) :
    Except String TicketRec × World :=
  if ¬ senv.qrOk then (Except.error msgQrFailed, w)
  else if ¬ senv.ticketSaveOk then (Except.error msgTicketSaveFailed, w)
  else
    let t : TicketRec :=
      { id := w.tickets.length, ticketNumber := ticketNumber, eventId := eventId,
        userId := userId, price := price, paymentReference := ref,
        paymentStatus := PayStatus.successful, status := TicketStatus.confirmed,
        purchaseDate := now, usedAt := none }
    let w1 := { w with tickets := w.tickets ++ [t] }
    if ¬ senv.userUpdateOk then (Except.error msgUserUpdateFailed, w1)
    else if ¬ senv.eventUpdateOk then (Except.error msgEventUpdateFailed, w1)
    else
      let w2 := updateEventAvail w1 eventId (-1)
      if ¬ senv.paymentSaveOk then (Except.error msgPaymentRecordFailed, w2)
      else
        let pay : PaymentRec :=
          { reference := ref, userId := userId, eventId := eventId,
            ticketId := t.id, amount := price, status := PayStatus.successful }
        let w3 := { w2 with payments := w2.payments ++ [pay] }
        (Except.ok t, w3)

structure VerifyResult where
  success : Bool
  ticket : Option TicketRec
  message : String
deriving DecidableEq, Repr

/-- TicketService.verifyPayment, the reconciliation entry point used by both
the webhook and the client poll. Looks up the intent, asks the gateway for
the definitive status, creates the ticket, then deletes the intent. Any
thrown error is caught and returned as a failure result, keeping whatever
state the failing step left behind. -/
def verifyPayment (genv : GatewayEnv) (senv : StepEnv) (w : World) (now : Time)
    (ticketNumber : Nat) (ref : String) : VerifyResult × World :=
  match findIntent w ref with
  | none => ({ success := false, ticket := none, message := msgSessionExpired }, w)
  | some entry =>
    if genv.verifyStatus ≠ GatewayStatus.success then
      ({ success := false, ticket := none, message := msgVerificationFailed }, w)
    else
      let d := entry.data
      let pricePerTicket : Int := jsRound ((d.totalAmount / (d.quantity : JsNum)) * 100)
      match createTicket senv w now d.eventId d.userId ticketNumber pricePerTicket ref with
      | (Except.error m, w1) => ({ success := false, ticket := none, message := m }, w1)
      | (Except.ok t, w1) =>
        let w2 := cacheDel w1 ref
        ({ success := true, ticket := some t, message := msgPaymentSuccess }, w2)

/-- TicketService.cancelTicket. -/
def cancelTicket (w : World) (now : Time) (ticketId userId : Nat) :
    Except String (TicketRec × World) :=
  match w.tickets.find? (fun t => t.id == ticketId && t.userId == userId) with
  | none => Except.error msgTicketNotFoundPerm
  | some t =>
    if t.status = TicketStatus.used then Except.error msgCannotCancelUsed
    else if t.status = TicketStatus.cancelled then Except.error msgTicketAlreadyCancelled
    else if (findEvent w t.eventId).any (fun ev => decide (ev.date < now)) then
      Except.error msgPastEvent
    else
      let t1 := { t with status := TicketStatus.cancelled }
      let w1 := saveTicket w t1
      let w2 := updateEventAvail w1 t.eventId 1
      Except.ok (t1, w2)

/-- WalletService.refundWallet: validates the amount and the wallet, then
credits the balance and records a completed refund transaction. -/
def refundWallet (w : World) (userId : Nat) (amount : JsNum) (ref : String) :
    Except String World :=
  if amount ≤ (0 : JsNum) then Except.error msgAmountPositive
  else match w.wallets.find? (fun x => x.userId == userId) with
  | none => Except.error msgWalletNotFound
  | some wa =>
    if ¬ wa.isActive then Except.error msgWalletInactive
    else
      let newBalance := wa.balance + amount
      let wallets := w.wallets.map (fun x =>
        if x.userId == userId then { x with balance := newBalance } else x)
      let tr : TransRec :=
        { userId := userId, ttype := TransType.refund, amount := amount,
          balance := newBalance, reference := ref }
      Except.ok { w with wallets := wallets, transactions := w.transactions ++ [tr] }

structure RefundResult where
  success : Bool
  refundAmount : JsNum
  message : String
deriving DecidableEq, Repr

/-- RefundService.processTicketRefund. Refuses an already refunded ticket
with no mutation; otherwise computes the amount through
calculateRefundAmount (which fixes ticket status confirmed and event status
published), credits the wallet, marks the ticket refunded and cancelled,
and flips the payment record status. Inventory is never touched. -/
def processTicketRefund (w : World) (now : Time) (ticketId : Nat) :
    Except String (RefundResult × World) :=
  match w.tickets.find? (fun t => t.id == ticketId) with
  | none => Except.error msgTicketNotFound
  | some t =>
    if t.paymentStatus = PayStatus.refunded then
      Except.ok ({ success := false, refundAmount := 0, message := msgAlreadyRefunded }, w)
    else
      match findEvent w t.eventId with
      | none => Except.error msgEventNotFound
      | some ev =>
        let rcalc := calculateRefundAmount t.price ev.date t.purchaseDate now
        match refundWallet w t.userId rcalc.amount (refPrefix ++ t.paymentReference) with
        | Except.error m => Except.error m
        | Except.ok w1 =>
          let t1 := { t with paymentStatus := PayStatus.refunded,
                             status := TicketStatus.cancelled }
          let w2 := saveTicket w1 t1
          let w3 :=
            if t.paymentReference ≠ "" then
              { w2 with payments := w2.payments.map (fun p =>
                  if p.reference == t.paymentReference then
                    { p with status := PayStatus.refunded } else p) }
            else w2
          Except.ok ({ success := true, refundAmount := rcalc.amount,
                       message := msgRefundProcessed }, w3)

structure VerifyTicketResult where
  isValid : Bool
  message : String
deriving DecidableEq, Repr

/-- The event date used by verifyTicket: the populated event date, falling
back to the current instant when the event is missing. -/
def resolvedEventDate (w : World) (t : TicketRec) (now : Time) : Time :=
  match findEvent w t.eventId with
  | some ev => ev.date
  | none => now

/-- TicketService.verifyTicket, resolved by ticket number. The QR fallback
in the source only resolves the same document by id; the state machine that
follows resolution is embedded clause for clause. -/
def verifyTicket (w : World) (now : Time) (tn : Nat) : VerifyTicketResult × World :=
  match w.tickets.find? (fun t => t.ticketNumber == tn) with
  | none => ({ isValid := false, message := msgInvalidCode }, w)
  | some t =>
    let eventDate : Time := resolvedEventDate w t now
    if t.status = TicketStatus.used then
      ({ isValid := false, message := msgAlreadyUsed }, w)
    else if t.status = TicketStatus.cancelled then
      ({ isValid := false, message := msgCancelledTicket }, w)
    else if t.status = TicketStatus.expired ∨ eventDate < now then
      ({ isValid := false, message := msgExpiredTicket },
        saveTicket w { t with status := TicketStatus.expired })
    else if t.paymentStatus ≠ PayStatus.successful then
      ({ isValid := false, message := msgPaymentNotCompleted }, w)
    else if t.status = TicketStatus.confirmed then
      ({ isValid := true, message := msgValidTicket },
        saveTicket w { t with status := TicketStatus.used, usedAt := some now })
    else
      ({ isValid := true, message := msgValidTicket }, w)

/-- One pipeline operation, as dispatched by the controllers. -/
inductive Op where
  | purchase (genv : GatewayEnv) (eventId userId quantity : Nat)
  | reconcile (genv : GatewayEnv) (senv : StepEnv) (ticketNumber : Nat) (ref : String)
  | cancel (ticketId userId : Nat)
  | refund (ticketId : Nat)
deriving DecidableEq, Repr

/-- Apply one operation to the state; a thrown error leaves the state the
operation produced up to the throw (for purchase and cancel every throw
happens before any write, so the state is unchanged there). -/
def step (w : World) (now : Time) (op : Op) : World :=
  match op with
  | Op.purchase genv eid uid q =>
    match purchaseTicket genv w now eid uid q with
    | Except.ok (_, w1) => w1
    | Except.error _ => w
  | Op.reconcile genv senv tn ref => (verifyPayment genv senv w now tn ref).2
  | Op.cancel tid uid =>
    match cancelTicket w now tid uid with
    | Except.ok (_, w1) => w1
    | Except.error _ => w
  | Op.refund tid =>
    match processTicketRefund w now tid with
    | Except.ok (_, w1) => w1
    | Except.error _ => w

/-- Run a sequence of operations. -/
def run (w : World) (now : Time) : List Op → World
  | [] => w
  | op :: ops => run (step w now op) now ops

/-- The inventory invariant of the specification. -/
def inventoryInvariant (w : World) : Prop :=
  ∀ e ∈ w.events, 0 ≤ e.availableTickets ∧ e.availableTickets ≤ e.totalTickets

instance (w : World) : Decidable (inventoryInvariant w) := by
  unfold inventoryInvariant
  infer_instance

/-- The ticket a successful reconciliation of the given intent creates. -/
def reconTicket (w : World) (now : Time) (entry : CacheEntry) (tn : Nat) (ref : String) :
    TicketRec :=
  { id := w.tickets.length, ticketNumber := tn, eventId := entry.data.eventId,
    userId := entry.data.userId,
    price := jsRound ((entry.data.totalAmount / (entry.data.quantity : JsNum)) * 100),
    paymentReference := ref, paymentStatus := PayStatus.successful,
    status := TicketStatus.confirmed, purchaseDate := now, usedAt := none }

/-- The payment record a successful reconciliation creates. -/
def reconPayment (w : World) (now : Time) (entry : CacheEntry) (tn : Nat) (ref : String) :
    PaymentRec :=
  { reference := ref, userId := entry.data.userId, eventId := entry.data.eventId,
    ticketId := w.tickets.length, amount := (reconTicket w now entry tn ref).price,
    status := PayStatus.successful }

/-- The state a successful reconciliation leaves behind: ticket appended,
availableTickets decremented by one, payment record appended, intent key
deleted. -/
def reconWorld (w : World) (now : Time) (entry : CacheEntry) (tn : Nat) (ref : String) :
    World :=
  let t := reconTicket w now entry tn ref
  let w1 := { w with tickets := w.tickets ++ [t] }
  let w2 := updateEventAvail w1 entry.data.eventId (-1)
  let w3 := { w2 with payments := w2.payments ++ [reconPayment w now entry tn ref] }
  cacheDel w3 ref

/-- The ticket update performed by a successful refund. -/
def refundTicket (t : TicketRec) : TicketRec :=
  { t with paymentStatus := PayStatus.refunded, status := TicketStatus.cancelled }

/-- The state a successful processTicketRefund leaves behind: wallet
credited, refund transaction appended, ticket marked refunded and
cancelled, payment record flipped. The events collection is untouched. -/
def refundedWorld (w : World) (now : Time) (t : TicketRec) (ev : EventRec)
    (wa : WalletRec) : World :=
  let amt := (calculateRefundAmount t.price ev.date t.purchaseDate now).amount
  let newBalance := wa.balance + amt
  let w1 := { w with
    wallets := w.wallets.map (fun x =>
      if x.userId == t.userId then { x with balance := newBalance } else x),
    transactions := w.transactions ++
      [{ userId := t.userId, ttype := TransType.refund, amount := amt,
         balance := newBalance, reference := refPrefix ++ t.paymentReference }] }
  let w2 := saveTicket w1 (refundTicket t)
  if t.paymentReference ≠ "" then
    { w2 with payments := w2.payments.map (fun p =>
        if p.reference == t.paymentReference then
          { p with status := PayStatus.refunded } else p) }
  else w2

/-- Projection on a refund outcome: the result record when it succeeded. -/
def refundOutcome (x : Except String (RefundResult × World)) : Option RefundResult :=
  match x with
  | Except.ok p => some p.1
  | Except.error _ => none

/-- Projection on a refund outcome: the resulting state when it succeeded. -/
def refundFinalWorld (x : Except String (RefundResult × World)) : Option World :=
  match x with
  | Except.ok p => some p.2
  | Except.error _ => none

/- Concrete scenario data used by the counterexamples and witnesses. -/

/-- A published event ten days away, price 10000 kobo. -/
def evTen (avail total : Int) : EventRec :=
  { id := 0, ticketPrice := 10000, totalTickets := total, availableTickets := avail,
    date := 10 * msPerDay, status := EventStatus.published }

/-- The payment intent purchaseTicket stores for one ticket of evTen. -/
def intentOne : IntentRec :=
  { eventId := 0, userId := 7, quantity := 1,
    totalAmount := (JsNum.ofInt 10000 / 100) * (1 : JsNum), createdAt := 0 }

/-- The payment intent purchaseTicket stores for two tickets of evTen. -/
def intentTwo : IntentRec :=
  { eventId := 0, userId := 7, quantity := 2,
    totalAmount := (JsNum.ofInt 10000 / 100) * (2 : JsNum), createdAt := 0 }

/-- A gateway session with reference R1 that verifies as success. -/
def gwR1 : GatewayEnv :=
  { reference := "R1", verifyStatus := GatewayStatus.success, initOk := true }

/-- A second gateway session with reference R2 that verifies as success. -/
def gwR2 : GatewayEnv :=
  { reference := "R2", verifyStatus := GatewayStatus.success, initOk := true }

/-- World with a pending intent for one ticket under reference R1. -/
def worldIntentOne : World :=
  { events := [evTen 2 2], users := [7], tickets := [], payments := [],
    intents := [{ reference := "R1", data := intentOne, ttl := none }],
    wallets := [], transactions := [] }

/-- World with a pending intent for two tickets under reference R1. -/
def worldIntentTwo : World :=
  { events := [evTen 2 2], users := [7], tickets := [], payments := [],
    intents := [{ reference := "R1", data := intentTwo, ttl := none }],
    wallets := [], transactions := [] }

/-- World with a single available ticket and no intents yet. -/
def worldOneSeat : World :=
  { events := [evTen 1 1], users := [7], tickets := [], payments := [],
    intents := [], wallets := [], transactions := [] }

/-- The double-sale trace: both buyers pass the availability check at
initiation, then both references reconcile successfully. -/
def doubleSaleOps : List Op :=
  [Op.purchase gwR1 0 7 1, Op.purchase gwR2 0 7 1,
   Op.reconcile gwR1 StepEnv.allOk 100 "R1",
   Op.reconcile gwR2 StepEnv.allOk 101 "R2"]

/-- A used ticket of evTen, paid successfully, reference PR1. -/
def usedTicket : TicketRec :=
  { id := 0, ticketNumber := 100, eventId := 0, userId := 7, price := 10000,
    paymentReference := "PR1", paymentStatus := PayStatus.successful,
    status := TicketStatus.used, purchaseDate := 0, usedAt := some 0 }

/-- A confirmed ticket of evTen, paid successfully, reference PR1. -/
def confirmedTicket : TicketRec :=
  { id := 0, ticketNumber := 100, eventId := 0, userId := 7, price := 10000,
    paymentReference := "PR1", paymentStatus := PayStatus.successful,
    status := TicketStatus.confirmed, purchaseDate := 0, usedAt := none }

/-- World holding a used, paid ticket and an active wallet, the seat sold. -/
def worldUsedTicket : World :=
  { events := [evTen 0 1], users := [7], tickets := [usedTicket],
    payments := [{ reference := "PR1", userId := 7, eventId := 0, ticketId := 0,
                   amount := 10000, status := PayStatus.successful }],
    intents := [], wallets := [{ userId := 7, balance := 0, isActive := true }],
    transactions := [] }

/-- World holding a confirmed, paid ticket and an active wallet, the seat
sold. -/
def worldConfirmedTicket : World :=
  { events := [evTen 0 1], users := [7], tickets := [confirmedTicket],
    payments := [{ reference := "PR1", userId := 7, eventId := 0, ticketId := 0,
                   amount := 10000, status := PayStatus.successful }],
    intents := [], wallets := [{ userId := 7, balance := 0, isActive := true }],
    transactions := [] }

/-- World holding an already refunded ticket. -/
def worldRefundedTicket : World :=
  { events := [evTen 0 1], users := [7],
    tickets := [{ usedTicket with
      status := TicketStatus.cancelled
      paymentStatus := PayStatus.refunded }],
    payments := [], intents := [],
    wallets := [{ userId := 7, balance := 0, isActive := true }],
    transactions := [] }

/-- StepEnv in which the payment-record write throws after the ticket was
saved and inventory decremented. -/
def stepPayFail : StepEnv := { StepEnv.allOk with paymentSaveOk := false }

/-- A gateway session for reference R1 whose verification reports failed. -/
def gwR1Failed : GatewayEnv :=
  { reference := "R1", verifyStatus := GatewayStatus.failed, initOk := true }

/-- Projection on a purchase outcome: the result record when it succeeded. -/
def purchaseOutcome (x : Except String (PurchaseResult × World)) : Option PurchaseResult :=
  match x with
  | Except.ok p => some p.1
  | Except.error _ => none

/-- Projection on a purchase outcome: the resulting state when it succeeded. -/
def purchaseFinalWorld (x : Except String (PurchaseResult × World)) : Option World :=
  match x with
  | Except.ok p => some p.2
  | Except.error _ => none

/- Helper lemmas about the state functions. -/

theorem findIntent_cacheDel (w : World) (ref : String) :
    findIntent (cacheDel w ref) ref = none := by
  simp only [findIntent, cacheDel]
  rw [List.find?_eq_none]
  intro c hc
  simp only [List.mem_filter] at hc
  simpa using hc.2

theorem find?_filter_ne_append (l : List CacheEntry) (ref : String) (x : CacheEntry)
    (hx : (x.reference == ref) = true) :
    ((l.filter (fun c => c.reference != ref)) ++ [x]).find?
      (fun c => c.reference == ref) = some x := by
  induction l with
  | nil => simp [List.find?, hx]
  | cons a l ih =>
    by_cases h : (a.reference == ref) = true
    · have hbne : (a.reference != ref) = false := by simpa using h
      simp only [List.filter_cons, hbne]
      simpa using ih
    · have hbne : (a.reference != ref) = true := by simpa using h
      have hbeq : (a.reference == ref) = false := by simpa using h
      simp [List.filter_cons, hbne, hbeq, List.find?_cons, ih]

theorem findIntent_cacheSet (w : World) (ref : String) (d : IntentRec) (ttl : Option Nat) :
    findIntent (cacheSet w ref d ttl) ref =
      some { reference := ref, data := d, ttl := ttl } := by
  simp only [findIntent, cacheSet]
  exact find?_filter_ne_append w.intents ref _ (by simp)

theorem find?_map_incAvail (l : List EventRec) (eid : Nat) (d : Int) :
    (l.map (fun e => if e.id == eid then
        { e with availableTickets := e.availableTickets + d } else e)).find?
      (fun e => e.id == eid) =
    (l.find? (fun e => e.id == eid)).map
      (fun e => { e with availableTickets := e.availableTickets + d }) := by
  rw [List.find?_map]
  have hpf : ((fun e : EventRec => e.id == eid) ∘ (fun e =>
      if e.id == eid then { e with availableTickets := e.availableTickets + d } else e))
      = fun e => e.id == eid := by
    funext e
    by_cases h : (e.id == eid) = true
    · simp [Function.comp, h]
    · simp [Function.comp, h]
  rw [hpf]
  cases hfe : l.find? (fun e => e.id == eid) with
  | none => simp
  | some e =>
    have hp := List.find?_some hfe
    simp only [] at hp
    have he : e.id = eid := by simpa using hp
    simp [he]

theorem findEvent_updateEventAvail (w : World) (eid : Nat) (d : Int) :
    findEvent (updateEventAvail w eid d) eid =
      (findEvent w eid).map
        (fun e => { e with availableTickets := e.availableTickets + d }) := by
  simp only [findEvent, updateEventAvail]
  exact find?_map_incAvail w.events eid d

theorem find?_map_replace (l : List TicketRec) (tid : Nat) (t t1 : TicketRec)
    (htid : t.id = tid) (h1 : t1.id = tid)
    (h : l.find? (fun x => x.id == tid) = some t) :
    (l.map (fun x => if x.id == t.id then t1 else x)).find?
      (fun x => x.id == tid) = some t1 := by
  rw [List.find?_map]
  have hpf : ((fun x : TicketRec => x.id == tid) ∘ (fun x => if x.id == t.id then t1 else x))
      = fun x => x.id == tid := by
    funext x
    by_cases hx : (x.id == t.id) = true
    · have hxe : x.id = tid := by
        rw [← htid]
        simpa using hx
      simp [Function.comp, hx, hxe, h1, htid]
    · simp [Function.comp, hx]
  rw [hpf, h]
  simp [htid]

theorem verifyPayment_ok_eq (genv : GatewayEnv) (w : World) (now : Time) (tn : Nat)
    (ref : String) (entry : CacheEntry)
    (hfind : findIntent w ref = some entry)
    (hgw : genv.verifyStatus = GatewayStatus.success) :
    verifyPayment genv StepEnv.allOk w now tn ref =
      ({ success := true, ticket := some (reconTicket w now entry tn ref),
         message := msgPaymentSuccess }, reconWorld w now entry tn ref) := by
  unfold verifyPayment
  rw [hfind]
  simp [hgw, createTicket, StepEnv.allOk, reconWorld, reconTicket, reconPayment]

/- Claim theorems. -/

/-- Claim C5: for a confirmed ticket of a published event,
checkRefundEligibility follows the time schedule — eligible 100% beyond 7
days, 50% for 3 to 7 days, 25% for 1 to 3 days, ineligible within 0 to 1
day, ineligible (event passed) for negative daysUntilEvent, where
daysUntilEvent is the ceiling of (eventDate - now) in days — and an
organizer-cancelled event yields eligible 100% regardless of timing. -/
theorem C5_refund_policy_schedule (eventDate purchaseDate now : Time) :
    (7 < daysUntilEvent eventDate now →
      checkRefundEligibility eventDate purchaseDate TicketStatus.confirmed
          EventStatus.published now =
        { eligible := true, refundPercentage := 100,
          deadline := some (eventDate - 7 * msPerDay), reason := reasonFull }) ∧
    (3 < daysUntilEvent eventDate now ∧ daysUntilEvent eventDate now ≤ 7 →
      checkRefundEligibility eventDate purchaseDate TicketStatus.confirmed
          EventStatus.published now =
        { eligible := true, refundPercentage := 50,
          deadline := some (eventDate - 3 * msPerDay), reason := reasonHalf }) ∧
    (1 < daysUntilEvent eventDate now ∧ daysUntilEvent eventDate now ≤ 3 →
      checkRefundEligibility eventDate purchaseDate TicketStatus.confirmed
          EventStatus.published now =
        { eligible := true, refundPercentage := 25,
          deadline := some (eventDate - 1 * msPerDay), reason := reasonQuarter }) ∧
    (0 ≤ daysUntilEvent eventDate now ∧ daysUntilEvent eventDate now ≤ 1 →
      checkRefundEligibility eventDate purchaseDate TicketStatus.confirmed
          EventStatus.published now =
        { eligible := false, refundPercentage := 0, deadline := none,
          reason := reasonWithin24 }) ∧
    (daysUntilEvent eventDate now < 0 →
      checkRefundEligibility eventDate purchaseDate TicketStatus.confirmed
          EventStatus.published now =
        { eligible := false, refundPercentage := 0, deadline := none,
          reason := reasonPassed }) ∧
    (checkRefundEligibility eventDate purchaseDate TicketStatus.confirmed
        EventStatus.cancelled now =
      { eligible := true, refundPercentage := 100, deadline := none,
        reason := reasonOrganizerCancelled }) := by
  refine ⟨?_, ?_, ?_, ?_, ?_, ?_⟩
  · intro h
    unfold checkRefundEligibility
    rw [if_neg (by decide), if_neg (by decide), if_neg (by decide), if_pos h]
  · intro h
    unfold checkRefundEligibility
    rw [if_neg (by decide), if_neg (by decide), if_neg (by decide),
        if_neg (by omega), if_pos h.1]
  · intro h
    unfold checkRefundEligibility
    rw [if_neg (by decide), if_neg (by decide), if_neg (by decide),
        if_neg (by omega), if_neg (by omega), if_pos h.1]
  · intro h
    unfold checkRefundEligibility
    rw [if_neg (by decide), if_neg (by decide), if_neg (by decide),
        if_neg (by omega), if_neg (by omega), if_neg (by omega), if_pos h.1]
  · intro h
    unfold checkRefundEligibility
    rw [if_neg (by decide), if_neg (by decide), if_neg (by decide),
        if_neg (by omega), if_neg (by omega), if_neg (by omega), if_neg (by omega)]
  · unfold checkRefundEligibility
    rw [if_neg (by decide), if_neg (by decide), if_pos rfl]

/-- Witness for C5: concrete dates in each band of the schedule, obtained by
applying the theorem. -/
theorem C5_refund_policy_schedule_witness :
    (checkRefundEligibility (10 * msPerDay) 0 TicketStatus.confirmed
        EventStatus.published 0).refundPercentage = 100 ∧
    (checkRefundEligibility (5 * msPerDay) 0 TicketStatus.confirmed
        EventStatus.published 0).refundPercentage = 50 ∧
    (checkRefundEligibility (2 * msPerDay) 0 TicketStatus.confirmed
        EventStatus.published 0).refundPercentage = 25 ∧
    (checkRefundEligibility (msPerDay / 2) 0 TicketStatus.confirmed
        EventStatus.published 0).eligible = false ∧
    (checkRefundEligibility (-msPerDay) 0 TicketStatus.confirmed
        EventStatus.published 0).reason = reasonPassed ∧
    (checkRefundEligibility (msPerDay / 2) 0 TicketStatus.confirmed
        EventStatus.cancelled 0).refundPercentage = 100 :=
  ⟨by rw [(C5_refund_policy_schedule (10 * msPerDay) 0 0).1 (by decide)],
   by rw [(C5_refund_policy_schedule (5 * msPerDay) 0 0).2.1 (by decide)],
   by rw [(C5_refund_policy_schedule (2 * msPerDay) 0 0).2.2.1 (by decide)],
   by rw [(C5_refund_policy_schedule (msPerDay / 2) 0 0).2.2.2.1 (by decide)],
   by rw [(C5_refund_policy_schedule (-msPerDay) 0 0).2.2.2.2.1 (by decide)],
   by rw [(C5_refund_policy_schedule (msPerDay / 2) 0 0).2.2.2.2.2]⟩

/-- Claim C10: processTicketRefund on a ticket whose paymentStatus is
already refunded returns success false with refundAmount 0 and leaves the
whole state unchanged. -/
theorem C10_already_refunded_is_noop (w : World) (now : Time) (tid : Nat) (t : TicketRec)
    (ht : w.tickets.find? (fun x => x.id == tid) = some t)
    (hr : t.paymentStatus = PayStatus.refunded) :
    processTicketRefund w now tid =
      Except.ok ({ success := false, refundAmount := 0, message := msgAlreadyRefunded }, w) := by
  unfold processTicketRefund
  rw [ht]
  simp [hr]

/-- Witness for C10 at a concrete already-refunded ticket. -/
theorem C10_already_refunded_is_noop_witness :
    processTicketRefund worldRefundedTicket 0 0 =
      Except.ok ({ success := false, refundAmount := 0,
                   message := msgAlreadyRefunded }, worldRefundedTicket) :=
  C10_already_refunded_is_noop worldRefundedTicket 0 0
    { usedTicket with
      status := TicketStatus.cancelled
      paymentStatus := PayStatus.refunded }
    (by decide) (by decide)

/-- Claim C1 (amended): after a completed successful reconciliation of a
reference, a second reconciliation of the same reference creates no second
ticket and causes no second decrement — the state is unchanged — but it
returns a session-expired failure with no ticket instead of returning the
already-created ticket. -/
theorem C1_second_reconcile_fails_without_side_effects
    (genv genv2 : GatewayEnv) (senv2 : StepEnv) (w : World) (now now2 : Time)
    (tn tn2 : Nat) (ref : String) (entry : CacheEntry)
    (hfind : findIntent w ref = some entry)
    (hgw : genv.verifyStatus = GatewayStatus.success) :
    (verifyPayment genv StepEnv.allOk w now tn ref).1.success = true ∧
    verifyPayment genv2 senv2 (verifyPayment genv StepEnv.allOk w now tn ref).2 now2 tn2 ref =
      ({ success := false, ticket := none, message := msgSessionExpired },
       (verifyPayment genv StepEnv.allOk w now tn ref).2) := by
  rw [verifyPayment_ok_eq genv w now tn ref entry hfind hgw]
  refine ⟨rfl, ?_⟩
  have h2 : findIntent (reconWorld w now entry tn ref) ref = none :=
    findIntent_cacheDel _ ref
  unfold verifyPayment
  rw [h2]

/-- Witness for C1 at a concrete pending intent. -/
theorem C1_second_reconcile_fails_witness :
    (verifyPayment gwR1 StepEnv.allOk worldIntentOne 0 100 "R1").1.success = true ∧
    verifyPayment gwR1 StepEnv.allOk
        (verifyPayment gwR1 StepEnv.allOk worldIntentOne 0 100 "R1").2 0 101 "R1" =
      ({ success := false, ticket := none, message := msgSessionExpired },
       (verifyPayment gwR1 StepEnv.allOk worldIntentOne 0 100 "R1").2) :=
  C1_second_reconcile_fails_without_side_effects gwR1 gwR1 StepEnv.allOk
    worldIntentOne 0 0 100 101 "R1"
    { reference := "R1", data := intentOne, ttl := none } (by decide) (by decide)

/-- Counterexample to C1 as stated: at this concrete input the first
reconciliation succeeds, and the second returns success false with no
ticket, rather than returning the already-created ticket successfully. -/
theorem C1_claim_counterexample :
    (verifyPayment gwR1 StepEnv.allOk worldIntentOne 0 100 "R1").1.success = true ∧
    (verifyPayment gwR1 StepEnv.allOk
        (verifyPayment gwR1 StepEnv.allOk worldIntentOne 0 100 "R1").2 0 101 "R1").1.success
      = false ∧
    (verifyPayment gwR1 StepEnv.allOk
        (verifyPayment gwR1 StepEnv.allOk worldIntentOne 0 100 "R1").2 0 101 "R1").1.ticket
      = none := by decide

/-- Claim C2 (amended): a successful reconciliation creates exactly one
ticket and decrements availableTickets of the intent event by exactly one,
regardless of the intent quantity, with no non-negativity re-check and no
InventoryExhausted failure path. -/
theorem C2_reconcile_creates_one_ticket_decrements_one
    (genv : GatewayEnv) (w : World) (now : Time) (tn : Nat) (ref : String)
    (entry : CacheEntry)
    (hfind : findIntent w ref = some entry)
    (hgw : genv.verifyStatus = GatewayStatus.success) :
    (verifyPayment genv StepEnv.allOk w now tn ref).1.success = true ∧
    (verifyPayment genv StepEnv.allOk w now tn ref).2.tickets.length
      = w.tickets.length + 1 ∧
    findEvent (verifyPayment genv StepEnv.allOk w now tn ref).2 entry.data.eventId =
      (findEvent w entry.data.eventId).map
        (fun e => { e with availableTickets := e.availableTickets - 1 }) := by
  rw [verifyPayment_ok_eq genv w now tn ref entry hfind hgw]
  refine ⟨rfl, ?_, ?_⟩
  · show (reconWorld w now entry tn ref).tickets.length = w.tickets.length + 1
    have h : (reconWorld w now entry tn ref).tickets
        = w.tickets ++ [reconTicket w now entry tn ref] := rfl
    rw [h, List.length_append]
    rfl
  · show findEvent (reconWorld w now entry tn ref) entry.data.eventId = _
    have h : findEvent (reconWorld w now entry tn ref) entry.data.eventId =
        findEvent (updateEventAvail
          { w with tickets := w.tickets ++ [reconTicket w now entry tn ref] }
          entry.data.eventId (-1)) entry.data.eventId := rfl
    rw [h, findEvent_updateEventAvail]
    have h2 : findEvent { w with tickets := w.tickets ++ [reconTicket w now entry tn ref] }
        entry.data.eventId = findEvent w entry.data.eventId := rfl
    rw [h2]
    have h3 : (fun e : EventRec => { e with availableTickets := e.availableTickets + (-1) })
        = fun e : EventRec => { e with availableTickets := e.availableTickets - 1 } := by
      funext e
      have : e.availableTickets + (-1) = e.availableTickets - 1 := by omega
      rw [this]
    rw [h3]

/-- Witness for C2 at a concrete pending intent of quantity one. -/
theorem C2_reconcile_decrements_one_witness :
    (verifyPayment gwR1 StepEnv.allOk worldIntentOne 0 100 "R1").1.success = true ∧
    (verifyPayment gwR1 StepEnv.allOk worldIntentOne 0 100 "R1").2.tickets.length
      = worldIntentOne.tickets.length + 1 ∧
    findEvent (verifyPayment gwR1 StepEnv.allOk worldIntentOne 0 100 "R1").2 0 =
      (findEvent worldIntentOne 0).map
        (fun e => { e with availableTickets := e.availableTickets - 1 }) :=
  C2_reconcile_creates_one_ticket_decrements_one gwR1 worldIntentOne 0 100 "R1"
    { reference := "R1", data := intentOne, ttl := none } (by decide) (by decide)

/-- Counterexample to C2 as stated: reconciling an intent of quantity two
succeeds but decrements availableTickets by one (from 2 to 1), not by the
intent quantity (which would leave 0). -/
theorem C2_claim_counterexample :
    intentTwo.quantity = 2 ∧
    (verifyPayment gwR1 StepEnv.allOk worldIntentTwo 0 100 "R1").1.success = true ∧
    (findEvent (verifyPayment gwR1 StepEnv.allOk worldIntentTwo 0 100 "R1").2 0).map
        EventRec.availableTickets = some 1 ∧
    ¬ ((findEvent (verifyPayment gwR1 StepEnv.allOk worldIntentTwo 0 100 "R1").2 0).map
        EventRec.availableTickets = some (2 - 2)) := by decide

/-- Claim C3: the inventory invariant 0 ≤ availableTickets ≤ totalTickets is
violated by the code — starting from a valid single-seat event, two
purchase initiations both pass the availability check, and the two
reconciliations then both decrement, driving availableTickets to -1. -/
theorem C3_inventory_invariant_violation :
    inventoryInvariant worldOneSeat ∧
    ¬ inventoryInvariant (run worldOneSeat 0 doubleSaleOps) ∧
    (findEvent (run worldOneSeat 0 doubleSaleOps) 0).map EventRec.availableTickets
      = some (-1) := by decide

/-- Claim C6 (amended): a reconciliation failure that occurs before the
ticket write is persisted — intent absent, gateway reporting non-success,
QR generation failing, or the ticket save itself failing — returns failure
and leaves the entire state unchanged (in particular the intent stays in
place). -/
theorem C6_prepersistence_failure_leaves_state_unchanged
    (genv : GatewayEnv) (senv : StepEnv) (w : World) (now : Time) (tn : Nat) (ref : String)
    (h : findIntent w ref = none ∨ genv.verifyStatus ≠ GatewayStatus.success ∨
         senv.qrOk = false ∨ senv.ticketSaveOk = false) :
    (verifyPayment genv senv w now tn ref).1.success = false ∧
    (verifyPayment genv senv w now tn ref).2 = w := by
  unfold verifyPayment
  rcases h with h | h | h | h
  · rw [h]
    exact ⟨rfl, rfl⟩
  · cases hf : findIntent w ref with
    | none => exact ⟨rfl, rfl⟩
    | some entry => simp [h]
  · cases hf : findIntent w ref with
    | none => exact ⟨rfl, rfl⟩
    | some entry =>
      by_cases hgw : genv.verifyStatus = GatewayStatus.success
      · simp [hgw, createTicket, h]
      · simp [hgw]
  · cases hf : findIntent w ref with
    | none => exact ⟨rfl, rfl⟩
    | some entry =>
      by_cases hgw : genv.verifyStatus = GatewayStatus.success
      · by_cases hq : senv.qrOk = false
        · simp [hgw, createTicket, hq]
        · have hq2 : senv.qrOk = true := by
            cases hqr : senv.qrOk with
            | true => rfl
            | false => exact absurd hqr hq
          simp [hgw, createTicket, hq2, h]
      · simp [hgw]

/-- Witness for C6: a gateway that reports failed leaves the state
unchanged. -/
theorem C6_prepersistence_failure_witness :
    (verifyPayment gwR1Failed StepEnv.allOk worldIntentOne 0 100 "R1").1.success = false ∧
    (verifyPayment gwR1Failed StepEnv.allOk worldIntentOne 0 100 "R1").2 = worldIntentOne :=
  C6_prepersistence_failure_leaves_state_unchanged gwR1Failed StepEnv.allOk
    worldIntentOne 0 100 "R1" (Or.inr (Or.inl (by decide)))

/-- Counterexample to C6 as stated: when the payment-record write fails
after the ticket save, verifyPayment returns failure yet the ticket is
persisted, availableTickets is decremented (2 to 1), and the intent is
still present — the state is not unchanged. -/
theorem C6_claim_counterexample :
    (verifyPayment gwR1 stepPayFail worldIntentOne 0 100 "R1").1.success = false ∧
    (verifyPayment gwR1 stepPayFail worldIntentOne 0 100 "R1").2.tickets.length = 1 ∧
    (findEvent (verifyPayment gwR1 stepPayFail worldIntentOne 0 100 "R1").2 0).map
        EventRec.availableTickets = some 1 ∧
    findIntent (verifyPayment gwR1 stepPayFail worldIntentOne 0 100 "R1").2 "R1" =
      some { reference := "R1", data := intentOne, ttl := none } := by decide

theorem refundedWorld_events (w : World) (now : Time) (t : TicketRec) (ev : EventRec)
    (wa : WalletRec) : (refundedWorld w now t ev wa).events = w.events := by
  simp only [refundedWorld, saveTicket]
  split <;> rfl

theorem refundedWorld_transactions (w : World) (now : Time) (t : TicketRec) (ev : EventRec)
    (wa : WalletRec) : (refundedWorld w now t ev wa).transactions =
      w.transactions ++
        [{ userId := t.userId, ttype := TransType.refund,
           amount := (calculateRefundAmount t.price ev.date t.purchaseDate now).amount,
           balance := wa.balance + (calculateRefundAmount t.price ev.date t.purchaseDate now).amount,
           reference := refPrefix ++ t.paymentReference }] := by
  simp only [refundedWorld, saveTicket]
  split <;> rfl

theorem refundedWorld_tickets (w : World) (now : Time) (t : TicketRec) (ev : EventRec)
    (wa : WalletRec) : (refundedWorld w now t ev wa).tickets =
      w.tickets.map (fun x => if x.id == t.id then refundTicket t else x) := by
  simp only [refundedWorld, saveTicket]
  split <;> rfl

theorem processTicketRefund_ok_eq
    (w : World) (now : Time) (tid : Nat) (t : TicketRec) (ev : EventRec) (wa : WalletRec)
    (ht : w.tickets.find? (fun x => x.id == tid) = some t)
    (hnr : t.paymentStatus ≠ PayStatus.refunded)
    (hev : findEvent w t.eventId = some ev)
    (hwa : w.wallets.find? (fun x => x.userId == t.userId) = some wa)
    (hact : wa.isActive = true)
    (hpos : ¬ (calculateRefundAmount t.price ev.date t.purchaseDate now).amount ≤ (0 : JsNum)) :
    processTicketRefund w now tid =
      Except.ok ({ success := true,
                   refundAmount := (calculateRefundAmount t.price ev.date t.purchaseDate now).amount,
                   message := msgRefundProcessed },
                 refundedWorld w now t ev wa) := by
  unfold processTicketRefund
  rw [ht]
  simp [hnr, hev, refundWallet, hpos, hwa, hact, refundedWorld, refundTicket, saveTicket]

/-- Claim C4 (amended): the amount credited by processTicketRefund equals
ticketPrice times p over 100 where p is the time-based percentage computed
by checkRefundEligibility with ticket status fixed to confirmed and event
status fixed to published — the actual ticket and event statuses at
processing time are ignored, so a used ticket is still credited the
time-based amount. -/
theorem C4_refund_amount_ignores_status
    (w : World) (now : Time) (tid : Nat) (t : TicketRec) (ev : EventRec) (wa : WalletRec)
    (ht : w.tickets.find? (fun x => x.id == tid) = some t)
    (hnr : t.paymentStatus ≠ PayStatus.refunded)
    (hev : findEvent w t.eventId = some ev)
    (hwa : w.wallets.find? (fun x => x.userId == t.userId) = some wa)
    (hact : wa.isActive = true)
    (hpos : ¬ (calculateRefundAmount t.price ev.date t.purchaseDate now).amount ≤ (0 : JsNum)) :
    refundOutcome (processTicketRefund w now tid) =
      some { success := true,
             refundAmount := (JsNum.ofInt t.price *
               ((checkRefundEligibility ev.date t.purchaseDate TicketStatus.confirmed
                  EventStatus.published now).refundPercentage : JsNum)) / 100,
             message := msgRefundProcessed } := by
  rw [processTicketRefund_ok_eq w now tid t ev wa ht hnr hev hwa hact hpos]
  rfl

/-- Witness for C4: a used ticket, ten days before the event, is credited
the full time-based amount. -/
theorem C4_refund_amount_ignores_status_witness :
    refundOutcome (processTicketRefund worldUsedTicket 0 0) =
      some { success := true,
             refundAmount := (JsNum.ofInt usedTicket.price *
               ((checkRefundEligibility (evTen 0 1).date usedTicket.purchaseDate
                  TicketStatus.confirmed EventStatus.published 0).refundPercentage : JsNum)) / 100,
             message := msgRefundProcessed } :=
  C4_refund_amount_ignores_status worldUsedTicket 0 0 usedTicket (evTen 0 1)
    { userId := 7, balance := 0, isActive := true }
    (by decide) (by decide) (by decide) (by decide) (by decide) (by decide)

/-- Counterexample to C4 as stated: processing a refund for a used ticket
priced 10000, ten days before the event, succeeds and credits the full
10000 (as the unreduced fraction 1000000/100), not the percentage 0 the
claim requires for a used ticket. -/
theorem C4_claim_counterexample :
    usedTicket.status = TicketStatus.used ∧
    refundOutcome (processTicketRefund worldUsedTicket 0 0) =
      some { success := true, refundAmount := { num := 1000000, den := 100 },
             message := msgRefundProcessed } := by decide

/-- Claim C9 (amended): a successful processTicketRefund sets the ticket
status to cancelled and paymentStatus to refunded together with the
monetary credit, and records a wallet transaction whose reference is the
original payment reference prefixed REF-, but it does not release
inventory: the events collection, availableTickets included, is unchanged. -/
theorem C9_refund_updates_ticket_and_ledger_not_inventory
    (w : World) (now : Time) (tid : Nat) (t : TicketRec) (ev : EventRec) (wa : WalletRec)
    (ht : w.tickets.find? (fun x => x.id == tid) = some t)
    (hnr : t.paymentStatus ≠ PayStatus.refunded)
    (hev : findEvent w t.eventId = some ev)
    (hwa : w.wallets.find? (fun x => x.userId == t.userId) = some wa)
    (hact : wa.isActive = true)
    (hpos : ¬ (calculateRefundAmount t.price ev.date t.purchaseDate now).amount ≤ (0 : JsNum)) :
    (refundOutcome (processTicketRefund w now tid)).map RefundResult.success = some true ∧
    (refundFinalWorld (processTicketRefund w now tid)).map
        (fun w2 => w2.tickets.find? (fun x => x.id == tid)) =
      some (some (refundTicket t)) ∧
    (refundFinalWorld (processTicketRefund w now tid)).map World.transactions =
      some (w.transactions ++
        [{ userId := t.userId, ttype := TransType.refund,
           amount := (calculateRefundAmount t.price ev.date t.purchaseDate now).amount,
           balance := wa.balance + (calculateRefundAmount t.price ev.date t.purchaseDate now).amount,
           reference := refPrefix ++ t.paymentReference }]) ∧
    (refundFinalWorld (processTicketRefund w now tid)).map World.events = some w.events := by
  rw [processTicketRefund_ok_eq w now tid t ev wa ht hnr hev hwa hact hpos]
  have htid : t.id = tid := by
    have hp := List.find?_some ht
    simpa using hp
  refine ⟨rfl, ?_, ?_, ?_⟩
  · show some ((refundedWorld w now t ev wa).tickets.find? (fun x => x.id == tid)) = _
    rw [refundedWorld_tickets]
    rw [find?_map_replace w.tickets tid t (refundTicket t) htid htid ht]
  · show some (refundedWorld w now t ev wa).transactions = _
    rw [refundedWorld_transactions]
  · show some (refundedWorld w now t ev wa).events = _
    rw [refundedWorld_events]

/-- Witness for C9 at a concrete confirmed ticket. -/
theorem C9_refund_not_inventory_witness :
    (refundOutcome (processTicketRefund worldConfirmedTicket 0 0)).map
        RefundResult.success = some true ∧
    (refundFinalWorld (processTicketRefund worldConfirmedTicket 0 0)).map
        (fun w2 => w2.tickets.find? (fun x => x.id == 0)) =
      some (some (refundTicket confirmedTicket)) ∧
    (refundFinalWorld (processTicketRefund worldConfirmedTicket 0 0)).map
        World.transactions =
      some (worldConfirmedTicket.transactions ++
        [{ userId := confirmedTicket.userId, ttype := TransType.refund,
           amount := (calculateRefundAmount confirmedTicket.price (evTen 0 1).date
             confirmedTicket.purchaseDate 0).amount,
           balance := ({ userId := 7, balance := 0, isActive := true } : WalletRec).balance +
             (calculateRefundAmount confirmedTicket.price (evTen 0 1).date
               confirmedTicket.purchaseDate 0).amount,
           reference := refPrefix ++ confirmedTicket.paymentReference }]) ∧
    (refundFinalWorld (processTicketRefund worldConfirmedTicket 0 0)).map World.events =
      some worldConfirmedTicket.events :=
  C9_refund_updates_ticket_and_ledger_not_inventory worldConfirmedTicket 0 0
    confirmedTicket (evTen 0 1) { userId := 7, balance := 0, isActive := true }
    (by decide) (by decide) (by decide) (by decide) (by decide) (by decide)

/-- Counterexample to C9 as stated: a successful refund of the concrete
confirmed ticket leaves availableTickets at 0 — it is not incremented to 1
as the claim requires. -/
theorem C9_claim_counterexample :
    (refundOutcome (processTicketRefund worldConfirmedTicket 0 0)).map
        RefundResult.success = some true ∧
    (refundFinalWorld (processTicketRefund worldConfirmedTicket 0 0)).map
        (fun w2 => (findEvent w2 0).map EventRec.availableTickets) = some (some 0) ∧
    ¬ ((refundFinalWorld (processTicketRefund worldConfirmedTicket 0 0)).map
        (fun w2 => (findEvent w2 0).map EventRec.availableTickets) = some (some 1)) := by
  decide

/-- Claim C7 (amended): a successful purchaseTicket returns amount equal to
ticketPrice times quantity, does not touch inventory (the events collection
is unchanged), and stores the payment intent in the cache under the gateway
reference with no TTL, so an abandoned intent never expires. -/
theorem C7_purchase_stores_intent_without_ttl
    (genv : GatewayEnv) (w : World) (now : Time) (eid uid q : Nat) (ev : EventRec)
    (hev : findEvent w eid = some ev)
    (hpub : ev.status = EventStatus.published)
    (havail : (q : Int) ≤ ev.availableTickets)
    (huser : w.users.contains uid = true)
    (hinit : genv.initOk = true) :
    purchaseTicket genv w now eid uid q =
      Except.ok ({ reference := genv.reference, amount := ev.ticketPrice * (q : Int) },
        cacheSet w genv.reference
          { eventId := eid, userId := uid, quantity := q,
            totalAmount := (JsNum.ofInt ev.ticketPrice / 100) * (q : JsNum),
            createdAt := now } none) ∧
    (cacheSet w genv.reference
        { eventId := eid, userId := uid, quantity := q,
          totalAmount := (JsNum.ofInt ev.ticketPrice / 100) * (q : JsNum),
          createdAt := now } none).events = w.events ∧
    findIntent (cacheSet w genv.reference
        { eventId := eid, userId := uid, quantity := q,
          totalAmount := (JsNum.ofInt ev.ticketPrice / 100) * (q : JsNum),
          createdAt := now } none) genv.reference =
      some { reference := genv.reference,
             data := { eventId := eid, userId := uid, quantity := q,
                       totalAmount := (JsNum.ofInt ev.ticketPrice / 100) * (q : JsNum),
                       createdAt := now },
             ttl := none } := by
  have hlt : ¬ (ev.availableTickets < (q : Int)) := not_lt.mpr havail
  have hmem : uid ∈ w.users := by simpa using huser
  refine ⟨?_, rfl, findIntent_cacheSet w genv.reference _ none⟩
  unfold purchaseTicket
  rw [hev]
  simp [hpub, hlt, hmem, hinit]

/-- Witness for C7 at a concrete event with one seat. -/
theorem C7_purchase_without_ttl_witness :
    purchaseTicket gwR1 worldOneSeat 0 0 7 1 =
      Except.ok ({ reference := gwR1.reference, amount := (evTen 1 1).ticketPrice * (1 : Int) },
        cacheSet worldOneSeat gwR1.reference
          { eventId := 0, userId := 7, quantity := 1,
            totalAmount := (JsNum.ofInt (evTen 1 1).ticketPrice / 100) * (1 : JsNum),
            createdAt := 0 } none) ∧
    (cacheSet worldOneSeat gwR1.reference
        { eventId := 0, userId := 7, quantity := 1,
          totalAmount := (JsNum.ofInt (evTen 1 1).ticketPrice / 100) * (1 : JsNum),
          createdAt := 0 } none).events = worldOneSeat.events ∧
    findIntent (cacheSet worldOneSeat gwR1.reference
        { eventId := 0, userId := 7, quantity := 1,
          totalAmount := (JsNum.ofInt (evTen 1 1).ticketPrice / 100) * (1 : JsNum),
          createdAt := 0 } none) gwR1.reference =
      some { reference := gwR1.reference,
             data := { eventId := 0, userId := 7, quantity := 1,
                       totalAmount := (JsNum.ofInt (evTen 1 1).ticketPrice / 100) * (1 : JsNum),
                       createdAt := 0 },
             ttl := none } :=
  C7_purchase_stores_intent_without_ttl gwR1 worldOneSeat 0 0 7 1 (evTen 1 1)
    (by decide) (by decide) (by decide) (by decide) (by decide)

/-- Counterexample to C7 as stated: the concrete successful purchase stores
the intent with ttl none — no bounded TTL (the claimed one-hour default) is
attached, so the intent never expires. -/
theorem C7_claim_counterexample :
    purchaseOutcome (purchaseTicket gwR1 worldOneSeat 0 0 7 1) =
      some { reference := "R1", amount := 10000 } ∧
    (purchaseFinalWorld (purchaseTicket gwR1 worldOneSeat 0 0 7 1)).map
        (fun w2 => (findIntent w2 "R1").map CacheEntry.ttl) = some (some none) ∧
    (purchaseFinalWorld (purchaseTicket gwR1 worldOneSeat 0 0 7 1)).map World.events =
      some worldOneSeat.events := by decide

/-- Claim C8: verifyTicket transitions a confirmed ticket to used, stamping
usedAt, exactly when the event date has not passed and payment is
successful; an already used ticket is reported invalid with no mutation;
and a confirmed ticket whose event date is past is transitioned to expired
and reported invalid. -/
theorem C8_verify_ticket_state_machine
    (w : World) (now : Time) (tn : Nat) (t : TicketRec)
    (hfind : w.tickets.find? (fun x => x.ticketNumber == tn) = some t) :
    (t.status = TicketStatus.confirmed → ¬ resolvedEventDate w t now < now →
      t.paymentStatus = PayStatus.successful →
      verifyTicket w now tn =
        ({ isValid := true, message := msgValidTicket },
         saveTicket w { t with status := TicketStatus.used, usedAt := some now })) ∧
    (t.status = TicketStatus.confirmed → ¬ resolvedEventDate w t now < now →
      t.paymentStatus ≠ PayStatus.successful →
      verifyTicket w now tn = ({ isValid := false, message := msgPaymentNotCompleted }, w)) ∧
    (t.status = TicketStatus.used →
      verifyTicket w now tn = ({ isValid := false, message := msgAlreadyUsed }, w)) ∧
    (t.status = TicketStatus.confirmed → resolvedEventDate w t now < now →
      verifyTicket w now tn =
        ({ isValid := false, message := msgExpiredTicket },
         saveTicket w { t with status := TicketStatus.expired })) := by
  refine ⟨?_, ?_, ?_, ?_⟩
  · intro hs hd hp
    unfold verifyTicket
    rw [hfind]
    simp [hs, hd, hp]
  · intro hs hd hp
    unfold verifyTicket
    rw [hfind]
    simp [hs, hd, hp]
  · intro hs
    unfold verifyTicket
    rw [hfind]
    simp [hs]
  · intro hs hd
    unfold verifyTicket
    rw [hfind]
    simp [hs, hd]

/-- Witness for C8: a confirmed, paid ticket of a future event verifies as
valid and is stamped used. -/
theorem C8_verify_ticket_witness :
    verifyTicket worldConfirmedTicket 0 100 =
      ({ isValid := true, message := msgValidTicket },
       saveTicket worldConfirmedTicket
         { confirmedTicket with status := TicketStatus.used, usedAt := some 0 }) :=
  (C8_verify_ticket_state_machine worldConfirmedTicket 0 100 confirmedTicket
    (by decide)).1 (by decide) (by decide) (by decide)

end Eventful
